import Mathlib

/-!
Verification of the etcd cluster-membership facade: the client stub
(clientv3/cluster.go) and the server handler
(etcdserver/api/v3rpc/member.go), embedded shallowly.

The consensus delegate (etcdserver.ServerV3), the remote channel
(pb.ClusterClient), URL parsing (pkg/types.NewURLs), the member entity
constructors (api/membership) and the error translators (togRPCError,
toErr) are external to the two given source files; they are modelled as
oracle fields of explicit environment structures, or, where the
specification fixes their behaviour, as definitions marked
`Modelled from the spec:`.

Each server and client operation is embedded as a pure function from its
environment and request to a pair: the list of delegate (resp. remote)
calls it issues, and its Go-style result, an `Except` of the error and
the response.  The call list makes claims of the form "no delegate call
is made" directly provable.
-/

set_option autoImplicit false

/-- A cluster member, flattening membership.Member's RaftAttributes
(PeerURLs, IsLearner) and Attributes (Name, ClientURLs).  The
`autoPromote` flag records the auto-promoting-learner variant; it is
modelled from the spec (the membership package is not among the given
sources): an auto-promoting learner is a learner flagged so the
consensus layer promotes it once caught up. -/
structure Member where
  name : String
  id : Nat
  peerURLs : List String
  clientURLs : List String
  isLearner : Bool
  autoPromote : Bool
  deriving DecidableEq

/-- The wire-level member record (pb.Member): name, id, peer URLs,
client URLs and the learner flag, with Go zero values as defaults. -/
structure PbMember where
  name : String := ""
  id : Nat := 0
  peerURLs : List String := []
  clientURLs : List String := []
  isLearner : Bool := false
  deriving DecidableEq

/-- pb.ResponseHeader restricted to the fields the facade sets:
cluster id, responding member id, and raft term. -/
structure ResponseHeader where
  clusterId : Nat
  memberId : Nat
  raftTerm : Nat
  deriving DecidableEq

/-- pb.MemberAddRequest. -/
structure MemberAddRequest where
  peerURLs : List String
  isLearner : Bool
  autoPromote : Bool
  deriving DecidableEq

/-- pb.MemberRemoveRequest. -/
structure MemberRemoveRequest where
  id : Nat
  deriving DecidableEq

/-- pb.MemberUpdateRequest. -/
structure MemberUpdateRequest where
  id : Nat
  peerURLs : List String
  deriving DecidableEq

/-- pb.MemberListRequest (no fields). -/
structure MemberListRequest where
  deriving DecidableEq

/-- pb.MemberPromoteRequest. -/
structure MemberPromoteRequest where
  id : Nat
  deriving DecidableEq

/-- pb.MemberAddResponse: header, the added member, and the full
post-change member list. -/
structure MemberAddResponse where
  header : ResponseHeader
  member : PbMember
  members : List PbMember
  deriving DecidableEq

/-- pb.MemberRemoveResponse. -/
structure MemberRemoveResponse where
  header : ResponseHeader
  members : List PbMember
  deriving DecidableEq

/-- pb.MemberUpdateResponse. -/
structure MemberUpdateResponse where
  header : ResponseHeader
  members : List PbMember
  deriving DecidableEq

/-- pb.MemberListResponse. -/
structure MemberListResponse where
  header : ResponseHeader
  members : List PbMember
  deriving DecidableEq

/-- pb.MemberPromoteResponse. -/
structure MemberPromoteResponse where
  header : ResponseHeader
  members : List PbMember
  deriving DecidableEq

/-- Error of URL-list validation.  Modelled from the spec:
pkg/types.NewURLs is not among the given sources; per the spec it fails
on an empty list (`noURLs`) or on the first entry that does not parse
as a valid URL (`invalid`). -/
inductive URLErr where
  | noURLs : URLErr
  | invalid : String → URLErr
  deriving DecidableEq

/-- Modelled from the spec: pkg/types.NewURLs (not among the given
sources) parses every peer address string and fails if the list is
empty or any entry is not a syntactically valid URL.  What counts as a
valid single URL string is kept opaque as the predicate `validURL`
passed in by the environment; on success the list is returned. -/
def NewURLs (validURL : String → Bool) (ss : List String) : Except URLErr (List String) :=
  if ss.isEmpty then Except.error URLErr.noURLs
  else
    match ss.find? (fun s => ! validURL s) with
    | some s => Except.error (URLErr.invalid s)
    | none => Except.ok ss

/-- Server-side error taxonomy: the URL-validation rejection
(rpctypes.ErrGRPCMemberBadURLs) or a translated delegate error. -/
inductive ServerErr (ε : Type) where
  | memberBadURLs : ServerErr ε
  | grpc : ε → ServerErr ε
  deriving DecidableEq

/-- rpctypes.ErrGRPCMemberBadURLs, the error returned by the server when
peer-URL validation fails. -/
def ErrGRPCMemberBadURLs {ε : Type} : ServerErr ε := ServerErr.memberBadURLs

/-- Modelled from the spec: togRPCError (not among the given sources)
translates a delegate error, once, at the boundary, into the
caller-facing taxonomy; modelled as the injection into the `grpc`
branch, so a translated error is never `memberBadURLs` and carries the
original delegate error intact. -/
def togRPCError {ε : Type} (e : ε) : ServerErr ε := ServerErr.grpc e

/-- Modelled from the spec: membership.NewMemberAsNode (not among the
given sources) builds a voting member from a name, parsed peer URLs, a
cluster name and a creation timestamp; the opaque id assignment is
passed in as `genID` (the cluster name and timestamp feed only that
opaque derivation, so they are unused here). -/
def NewMemberAsNode (name : String) (urls : List String) (_clusterName : String)
    (_now : Nat) (genID : List String → Nat) : Member :=
  { name := name, id := genID urls, peerURLs := urls, clientURLs := [],
    isLearner := false, autoPromote := false }

/-- Modelled from the spec: membership.NewMemberAsLearner (not among the
given sources) builds a learner member (isLearner true, not flagged for
automatic promotion). -/
def NewMemberAsLearner (name : String) (urls : List String) (_clusterName : String)
    (_now : Nat) (genID : List String → Nat) : Member :=
  { name := name, id := genID urls, peerURLs := urls, clientURLs := [],
    isLearner := true, autoPromote := false }

/-- Modelled from the spec: membership.NewMemberAsAutoPromotingNode (not
among the given sources) builds a learner flagged for automatic
promotion by the consensus layer once it catches up. -/
def NewMemberAsAutoPromotingNode (name : String) (urls : List String) (_clusterName : String)
    (_now : Nat) (genID : List String → Nat) : Member :=
  { name := name, id := genID urls, peerURLs := urls, clientURLs := [],
    isLearner := true, autoPromote := true }

/-- One call issued by the server to the consensus delegate
(etcdserver.ServerV3): the four mutating operations with their
arguments. -/
inductive DelegateCall where
  | addMember : Member → DelegateCall
  | removeMember : Nat → DelegateCall
  | updateMember : Member → DelegateCall
  | promoteMember : Nat → DelegateCall
  deriving DecidableEq

/-- api.Cluster as the server sees it: cluster identity and the current
authoritative member list. -/
structure ClusterView where
  id : Nat
  members : List Member
  deriving DecidableEq

/-- The server environment: the cluster view, the responder's own
identity and term, the creation clock, the opaque URL-validity
predicate and id assignment, and the consensus delegate's responses,
one oracle per operation, each taking the call context `κ` and
returning either a delegate error `ε` or the post-change member
list. -/
structure ServerEnv (κ ε : Type) where
  cluster : ClusterView
  serverID : Nat
  term : Nat
  now : Nat
  validURL : String → Bool
  genID : List String → Nat
  addMember : κ → Member → Except ε (List Member)
  removeMember : κ → Nat → Except ε (List Member)
  updateMember : κ → Member → Except ε (List Member)
  promoteMember : κ → Nat → Except ε (List Member)

/-- ClusterServer.header: a response header built from the responder's
own cluster id, own member id, and current term. -/
def ClusterServer.header {κ ε : Type} (cs : ServerEnv κ ε) : ResponseHeader :=
  { clusterId := cs.cluster.id, memberId := cs.serverID, raftTerm := cs.term }

/-- The per-member conversion inside membersToProtoMembers: copies name,
id, peer URLs, client URLs and the learner flag into a wire member. -/
def memberToProto (m : Member) : PbMember :=
  { name := m.name, id := m.id, peerURLs := m.peerURLs,
    clientURLs := m.clientURLs, isLearner := m.isLearner }

/-- membersToProtoMembers: converts the member list element-wise (the Go
source allocates a slice of the same length and fills position i from
position i). -/
def membersToProtoMembers (membs : List Member) : List PbMember :=
  membs.map memberToProto

/-- The member the server constructs in MemberAdd from the validated
URLs: the three-way variant dispatch on the request's isLearner and
autoPromote flags, as in the Go source's nested conditionals. -/
def ClusterServer.newAddMember {κ ε : Type} (cs : ServerEnv κ ε)
    (r : MemberAddRequest) (urls : List String) : Member :=
  if r.isLearner then
    if r.autoPromote then NewMemberAsAutoPromotingNode "" urls "" cs.now cs.genID
    else NewMemberAsLearner "" urls "" cs.now cs.genID
  else NewMemberAsNode "" urls "" cs.now cs.genID

/-- ClusterServer.MemberAdd: validates the peer URLs (rejecting with
ErrGRPCMemberBadURLs before any delegate call), constructs the member,
delegates to AddMember, translates a delegate error through
togRPCError, and on success responds with the header, the added member
(id, peer URLs, learner flag only) and the converted full list. -/
def ClusterServer.MemberAdd {κ ε : Type} (cs : ServerEnv κ ε) (ctx : κ)
    (r : MemberAddRequest) :
    List DelegateCall × Except (ServerErr ε) MemberAddResponse :=
  match NewURLs cs.validURL r.peerURLs with
  | Except.error _ => ([], Except.error ErrGRPCMemberBadURLs)
  | Except.ok urls =>
    match cs.addMember ctx (ClusterServer.newAddMember cs r urls) with
    | Except.error merr =>
      ([DelegateCall.addMember (ClusterServer.newAddMember cs r urls)],
       Except.error (togRPCError merr))
    | Except.ok membs =>
      ([DelegateCall.addMember (ClusterServer.newAddMember cs r urls)],
       Except.ok
         { header := ClusterServer.header cs,
           member := { name := "",
                       id := (ClusterServer.newAddMember cs r urls).id,
                       peerURLs := (ClusterServer.newAddMember cs r urls).peerURLs,
                       clientURLs := [],
                       isLearner := (ClusterServer.newAddMember cs r urls).isLearner },
           members := membersToProtoMembers membs })

/-- ClusterServer.MemberRemove: delegates to RemoveMember and either
translates its error through togRPCError or responds with the header
and the converted post-change list. -/
def ClusterServer.MemberRemove {κ ε : Type} (cs : ServerEnv κ ε) (ctx : κ)
    (r : MemberRemoveRequest) :
    List DelegateCall × Except (ServerErr ε) MemberRemoveResponse :=
  match cs.removeMember ctx r.id with
  | Except.error err => ([DelegateCall.removeMember r.id], Except.error (togRPCError err))
  | Except.ok membs =>
    ([DelegateCall.removeMember r.id],
     Except.ok { header := ClusterServer.header cs,
                 members := membersToProtoMembers membs })

/-- The member ClusterServer.MemberUpdate builds from the request: only
the id and the peer URLs are set (membership.Member{ID, RaftAttributes:
{PeerURLs}} in the Go source), every other field is at its zero
value. -/
def ClusterServer.updatedMember (r : MemberUpdateRequest) : Member :=
  { name := "", id := r.id, peerURLs := r.peerURLs, clientURLs := [],
    isLearner := false, autoPromote := false }

/-- ClusterServer.MemberUpdate: builds a member carrying only the
request's id and peer URLs (no URL validation is performed here) and
delegates to UpdateMember, translating its error through togRPCError. -/
def ClusterServer.MemberUpdate {κ ε : Type} (cs : ServerEnv κ ε) (ctx : κ)
    (r : MemberUpdateRequest) :
    List DelegateCall × Except (ServerErr ε) MemberUpdateResponse :=
  match cs.updateMember ctx (ClusterServer.updatedMember r) with
  | Except.error err =>
    ([DelegateCall.updateMember (ClusterServer.updatedMember r)],
     Except.error (togRPCError err))
  | Except.ok membs =>
    ([DelegateCall.updateMember (ClusterServer.updatedMember r)],
     Except.ok { header := ClusterServer.header cs,
                 members := membersToProtoMembers membs })

/-- ClusterServer.MemberList: a pure read of the cluster view; no
delegate call, never an error. -/
def ClusterServer.MemberList {κ ε : Type} (cs : ServerEnv κ ε) (_ctx : κ)
    (_r : MemberListRequest) :
    List DelegateCall × Except (ServerErr ε) MemberListResponse :=
  ([], Except.ok { header := ClusterServer.header cs,
                   members := membersToProtoMembers cs.cluster.members })

/-- ClusterServer.MemberPromote: delegates to PromoteMember and either
translates its error through togRPCError or responds with the header
and the converted post-change list. -/
def ClusterServer.MemberPromote {κ ε : Type} (cs : ServerEnv κ ε) (ctx : κ)
    (r : MemberPromoteRequest) :
    List DelegateCall × Except (ServerErr ε) MemberPromoteResponse :=
  match cs.promoteMember ctx r.id with
  | Except.error err => ([DelegateCall.promoteMember r.id], Except.error (togRPCError err))
  | Except.ok membs =>
    ([DelegateCall.promoteMember r.id],
     Except.ok { header := ClusterServer.header cs,
                 members := membersToProtoMembers membs })

/-- Client-side error taxonomy: the URL-validation error returned
verbatim, or a remote error translated by toErr. -/
inductive ClientErr (ε : Type) where
  | urls : URLErr → ClientErr ε
  | remote : ε → ClientErr ε
  deriving DecidableEq

/-- Modelled from the spec: toErr (clientv3, not among the given
sources) maps a transport or remote error into the client's taxonomy;
modelled as the injection into the `remote` branch. -/
def toErr {κ ε : Type} (_ctx : κ) (e : ε) : ClientErr ε := ClientErr.remote e

/-- One request transmitted by the client stub over the remote channel
(pb.ClusterClient). -/
inductive RemoteCall where
  | memberAdd : MemberAddRequest → RemoteCall
  | memberRemove : MemberRemoveRequest → RemoteCall
  | memberUpdate : MemberUpdateRequest → RemoteCall
  | memberList : MemberListRequest → RemoteCall
  | memberPromote : MemberPromoteRequest → RemoteCall
  deriving DecidableEq

/-- The client environment: the same opaque URL-validity predicate and
the remote channel's responses, one oracle per operation, each taking
the call context `κ` and returning either a remote error `ε` or the
server's response. -/
structure ClientEnv (κ ε : Type) where
  validURL : String → Bool
  remoteMemberAdd : κ → MemberAddRequest → Except ε MemberAddResponse
  remoteMemberRemove : κ → MemberRemoveRequest → Except ε MemberRemoveResponse
  remoteMemberUpdate : κ → MemberUpdateRequest → Except ε MemberUpdateResponse
  remoteMemberList : κ → MemberListRequest → Except ε MemberListResponse
  remoteMemberPromote : κ → MemberPromoteRequest → Except ε MemberPromoteResponse

/-- cluster.memberAdd: fail-fast URL validation (returning the
validation error with no request transmitted), then a single remote
MemberAdd carrying the raw peer addresses and the two flags, with
remote errors translated by toErr. -/
def cluster.memberAdd {κ ε : Type} (c : ClientEnv κ ε) (ctx : κ)
    (peerAddrs : List String) (isLearner : Bool) (autoPromote : Bool) :
    List RemoteCall × Except (ClientErr ε) MemberAddResponse :=
  match NewURLs c.validURL peerAddrs with
  | Except.error err => ([], Except.error (ClientErr.urls err))
  | Except.ok _ =>
    match c.remoteMemberAdd ctx
        { peerURLs := peerAddrs, isLearner := isLearner, autoPromote := autoPromote } with
    | Except.error err =>
      ([RemoteCall.memberAdd
         { peerURLs := peerAddrs, isLearner := isLearner, autoPromote := autoPromote }],
       Except.error (toErr ctx err))
    | Except.ok resp =>
      ([RemoteCall.memberAdd
         { peerURLs := peerAddrs, isLearner := isLearner, autoPromote := autoPromote }],
       Except.ok resp)

/-- cluster.MemberAddAsNode: memberAdd with isLearner=false,
autoPromote=false. -/
def cluster.MemberAddAsNode {κ ε : Type} (c : ClientEnv κ ε) (ctx : κ)
    (peerAddrs : List String) :
    List RemoteCall × Except (ClientErr ε) MemberAddResponse :=
  cluster.memberAdd c ctx peerAddrs false false

/-- cluster.MemberAddAsLearner: memberAdd with isLearner=true,
autoPromote=false. -/
def cluster.MemberAddAsLearner {κ ε : Type} (c : ClientEnv κ ε) (ctx : κ)
    (peerAddrs : List String) :
    List RemoteCall × Except (ClientErr ε) MemberAddResponse :=
  cluster.memberAdd c ctx peerAddrs true false

/-- cluster.MemberAddAsAutoPromotingNode: memberAdd with isLearner=true,
autoPromote=true. -/
def cluster.MemberAddAsAutoPromotingNode {κ ε : Type} (c : ClientEnv κ ε) (ctx : κ)
    (peerAddrs : List String) :
    List RemoteCall × Except (ClientErr ε) MemberAddResponse :=
  cluster.memberAdd c ctx peerAddrs true true

/-- cluster.MemberRemove: a single remote MemberRemove, remote errors
translated by toErr. -/
def cluster.MemberRemove {κ ε : Type} (c : ClientEnv κ ε) (ctx : κ) (id : Nat) :
    List RemoteCall × Except (ClientErr ε) MemberRemoveResponse :=
  let r : MemberRemoveRequest := { id := id }
  match c.remoteMemberRemove ctx r with
  | Except.error err => ([RemoteCall.memberRemove r], Except.error (toErr ctx err))
  | Except.ok resp => ([RemoteCall.memberRemove r], Except.ok resp)

/-- cluster.MemberUpdate: fail-fast URL validation (returning the
validation error with no request transmitted), then a single remote
MemberUpdate, remote errors translated by toErr. -/
def cluster.MemberUpdate {κ ε : Type} (c : ClientEnv κ ε) (ctx : κ) (id : Nat)
    (peerAddrs : List String) :
    List RemoteCall × Except (ClientErr ε) MemberUpdateResponse :=
  match NewURLs c.validURL peerAddrs with
  | Except.error err => ([], Except.error (ClientErr.urls err))
  | Except.ok _ =>
    match c.remoteMemberUpdate ctx { id := id, peerURLs := peerAddrs } with
    | Except.error err =>
      ([RemoteCall.memberUpdate { id := id, peerURLs := peerAddrs }],
       Except.error (toErr ctx err))
    | Except.ok resp =>
      ([RemoteCall.memberUpdate { id := id, peerURLs := peerAddrs }], Except.ok resp)

/-- cluster.MemberList: a single remote MemberList, remote errors
translated by toErr. -/
def cluster.MemberList {κ ε : Type} (c : ClientEnv κ ε) (ctx : κ) :
    List RemoteCall × Except (ClientErr ε) MemberListResponse :=
  let r : MemberListRequest := {}
  match c.remoteMemberList ctx r with
  | Except.error err => ([RemoteCall.memberList r], Except.error (toErr ctx err))
  | Except.ok resp => ([RemoteCall.memberList r], Except.ok resp)

/-- cluster.MemberPromote: a single remote MemberPromote, remote errors
translated by toErr. -/
def cluster.MemberPromote {κ ε : Type} (c : ClientEnv κ ε) (ctx : κ) (id : Nat) :
    List RemoteCall × Except (ClientErr ε) MemberPromoteResponse :=
  let r : MemberPromoteRequest := { id := id }
  match c.remoteMemberPromote ctx r with
  | Except.error err => ([RemoteCall.memberPromote r], Except.error (toErr ctx err))
  | Except.ok resp => ([RemoteCall.memberPromote r], Except.ok resp)

/-! ## Equation lemmas for the server operations -/

theorem MemberAdd_badURLs {κ ε : Type} {cs : ServerEnv κ ε} {ctx : κ}
    {r : MemberAddRequest} {e : URLErr}
    (hu : NewURLs cs.validURL r.peerURLs = Except.error e) :
    ClusterServer.MemberAdd cs ctx r = ([], Except.error ErrGRPCMemberBadURLs) := by
  unfold ClusterServer.MemberAdd
  rw [hu]

theorem MemberAdd_delegate_error {κ ε : Type} {cs : ServerEnv κ ε} {ctx : κ}
    {r : MemberAddRequest} {urls : List String} {merr : ε}
    (hu : NewURLs cs.validURL r.peerURLs = Except.ok urls)
    (ha : cs.addMember ctx (ClusterServer.newAddMember cs r urls) = Except.error merr) :
    ClusterServer.MemberAdd cs ctx r =
      ([DelegateCall.addMember (ClusterServer.newAddMember cs r urls)],
       Except.error (togRPCError merr)) := by
  unfold ClusterServer.MemberAdd
  rw [hu]
  simp only [ha]

theorem MemberAdd_delegate_ok {κ ε : Type} {cs : ServerEnv κ ε} {ctx : κ}
    {r : MemberAddRequest} {urls : List String} {membs : List Member}
    (hu : NewURLs cs.validURL r.peerURLs = Except.ok urls)
    (ha : cs.addMember ctx (ClusterServer.newAddMember cs r urls) = Except.ok membs) :
    ClusterServer.MemberAdd cs ctx r =
      ([DelegateCall.addMember (ClusterServer.newAddMember cs r urls)],
       Except.ok
         { header := ClusterServer.header cs,
           member := { name := "",
                       id := (ClusterServer.newAddMember cs r urls).id,
                       peerURLs := (ClusterServer.newAddMember cs r urls).peerURLs,
                       clientURLs := [],
                       isLearner := (ClusterServer.newAddMember cs r urls).isLearner },
           members := membersToProtoMembers membs }) := by
  unfold ClusterServer.MemberAdd
  rw [hu]
  simp only [ha]

theorem MemberRemove_delegate_error {κ ε : Type} {cs : ServerEnv κ ε} {ctx : κ}
    {r : MemberRemoveRequest} {merr : ε}
    (hd : cs.removeMember ctx r.id = Except.error merr) :
    ClusterServer.MemberRemove cs ctx r =
      ([DelegateCall.removeMember r.id], Except.error (togRPCError merr)) := by
  unfold ClusterServer.MemberRemove
  rw [hd]

theorem MemberRemove_delegate_ok {κ ε : Type} {cs : ServerEnv κ ε} {ctx : κ}
    {r : MemberRemoveRequest} {membs : List Member}
    (hd : cs.removeMember ctx r.id = Except.ok membs) :
    ClusterServer.MemberRemove cs ctx r =
      ([DelegateCall.removeMember r.id],
       Except.ok { header := ClusterServer.header cs,
                   members := membersToProtoMembers membs }) := by
  unfold ClusterServer.MemberRemove
  rw [hd]

theorem MemberUpdate_delegate_error {κ ε : Type} {cs : ServerEnv κ ε} {ctx : κ}
    {r : MemberUpdateRequest} {merr : ε}
    (hd : cs.updateMember ctx (ClusterServer.updatedMember r) = Except.error merr) :
    ClusterServer.MemberUpdate cs ctx r =
      ([DelegateCall.updateMember (ClusterServer.updatedMember r)],
       Except.error (togRPCError merr)) := by
  unfold ClusterServer.MemberUpdate
  rw [hd]

theorem MemberUpdate_delegate_ok {κ ε : Type} {cs : ServerEnv κ ε} {ctx : κ}
    {r : MemberUpdateRequest} {membs : List Member}
    (hd : cs.updateMember ctx (ClusterServer.updatedMember r) = Except.ok membs) :
    ClusterServer.MemberUpdate cs ctx r =
      ([DelegateCall.updateMember (ClusterServer.updatedMember r)],
       Except.ok { header := ClusterServer.header cs,
                   members := membersToProtoMembers membs }) := by
  unfold ClusterServer.MemberUpdate
  rw [hd]

theorem MemberPromote_delegate_error {κ ε : Type} {cs : ServerEnv κ ε} {ctx : κ}
    {r : MemberPromoteRequest} {merr : ε}
    (hd : cs.promoteMember ctx r.id = Except.error merr) :
    ClusterServer.MemberPromote cs ctx r =
      ([DelegateCall.promoteMember r.id], Except.error (togRPCError merr)) := by
  unfold ClusterServer.MemberPromote
  rw [hd]

theorem MemberPromote_delegate_ok {κ ε : Type} {cs : ServerEnv κ ε} {ctx : κ}
    {r : MemberPromoteRequest} {membs : List Member}
    (hd : cs.promoteMember ctx r.id = Except.ok membs) :
    ClusterServer.MemberPromote cs ctx r =
      ([DelegateCall.promoteMember r.id],
       Except.ok { header := ClusterServer.header cs,
                   members := membersToProtoMembers membs }) := by
  unfold ClusterServer.MemberPromote
  rw [hd]

/-! ## Equation lemmas for the client operations -/

theorem memberAdd_badURLs {κ ε : Type} {c : ClientEnv κ ε} {ctx : κ}
    {peerAddrs : List String} {isLearner autoPromote : Bool} {e : URLErr}
    (hu : NewURLs c.validURL peerAddrs = Except.error e) :
    cluster.memberAdd c ctx peerAddrs isLearner autoPromote =
      ([], Except.error (ClientErr.urls e)) := by
  unfold cluster.memberAdd
  rw [hu]

theorem memberAdd_remote_error {κ ε : Type} {c : ClientEnv κ ε} {ctx : κ}
    {peerAddrs : List String} {isLearner autoPromote : Bool}
    {ss : List String} {err : ε}
    (hu : NewURLs c.validURL peerAddrs = Except.ok ss)
    (hr : c.remoteMemberAdd ctx
        { peerURLs := peerAddrs, isLearner := isLearner, autoPromote := autoPromote } =
      Except.error err) :
    cluster.memberAdd c ctx peerAddrs isLearner autoPromote =
      ([RemoteCall.memberAdd
         { peerURLs := peerAddrs, isLearner := isLearner, autoPromote := autoPromote }],
       Except.error (toErr ctx err)) := by
  unfold cluster.memberAdd
  rw [hu]
  simp only [hr]

theorem memberAdd_remote_ok {κ ε : Type} {c : ClientEnv κ ε} {ctx : κ}
    {peerAddrs : List String} {isLearner autoPromote : Bool}
    {ss : List String} {resp : MemberAddResponse}
    (hu : NewURLs c.validURL peerAddrs = Except.ok ss)
    (hr : c.remoteMemberAdd ctx
        { peerURLs := peerAddrs, isLearner := isLearner, autoPromote := autoPromote } =
      Except.ok resp) :
    cluster.memberAdd c ctx peerAddrs isLearner autoPromote =
      ([RemoteCall.memberAdd
         { peerURLs := peerAddrs, isLearner := isLearner, autoPromote := autoPromote }],
       Except.ok resp) := by
  unfold cluster.memberAdd
  rw [hu]
  simp only [hr]

theorem clientMemberUpdate_badURLs {κ ε : Type} {c : ClientEnv κ ε} {ctx : κ}
    {id : Nat} {peerAddrs : List String} {e : URLErr}
    (hu : NewURLs c.validURL peerAddrs = Except.error e) :
    cluster.MemberUpdate c ctx id peerAddrs = ([], Except.error (ClientErr.urls e)) := by
  unfold cluster.MemberUpdate
  rw [hu]

/-! ## Concrete test environments for witnesses and counterexamples -/

/-- A server environment in which every URL string is valid and every
delegate call succeeds with an empty post-change list. -/
def testServerEnv : ServerEnv Unit Unit :=
  { cluster := { id := 7, members := [] },
    serverID := 2,
    term := 5,
    now := 0,
    validURL := fun _ => true,
    genID := fun _ => 11,
    addMember := fun _ _ => Except.ok [],
    removeMember := fun _ _ => Except.ok [],
    updateMember := fun _ _ => Except.ok [],
    promoteMember := fun _ _ => Except.ok [] }

/-- A server environment in which no URL string is valid. -/
def badServerEnv : ServerEnv Unit Unit :=
  { cluster := { id := 7, members := [] },
    serverID := 2,
    term := 5,
    now := 0,
    validURL := fun _ => false,
    genID := fun _ => 11,
    addMember := fun _ _ => Except.ok [],
    removeMember := fun _ _ => Except.ok [],
    updateMember := fun _ _ => Except.ok [],
    promoteMember := fun _ _ => Except.ok [] }

/-- A server environment in which every URL string is valid and every
delegate call fails, with a distinct error per operation. -/
def errServerEnv : ServerEnv Unit Nat :=
  { cluster := { id := 7, members := [] },
    serverID := 2,
    term := 5,
    now := 0,
    validURL := fun _ => true,
    genID := fun _ => 11,
    addMember := fun _ _ => Except.error 3,
    removeMember := fun _ _ => Except.error 4,
    updateMember := fun _ _ => Except.error 5,
    promoteMember := fun _ _ => Except.error 6 }

/-- A client environment in which every URL string is valid and every
remote call fails. -/
def testClientEnv : ClientEnv Unit Unit :=
  { validURL := fun _ => true,
    remoteMemberAdd := fun _ _ => Except.error (),
    remoteMemberRemove := fun _ _ => Except.error (),
    remoteMemberUpdate := fun _ _ => Except.error (),
    remoteMemberList := fun _ _ => Except.error (),
    remoteMemberPromote := fun _ _ => Except.error () }

/-- A client environment in which no URL string is valid. -/
def badClientEnv : ClientEnv Unit Unit :=
  { validURL := fun _ => false,
    remoteMemberAdd := fun _ _ => Except.error (),
    remoteMemberRemove := fun _ _ => Except.error (),
    remoteMemberUpdate := fun _ _ => Except.error (),
    remoteMemberList := fun _ _ => Except.error (),
    remoteMemberPromote := fun _ _ => Except.error () }

/-! ## Claims -/

/-- C7: for every context and peer-address list, the client entry points
are exactly the single underlying add with fixed flags:
MemberAddAsNode is memberAdd with (false, false), MemberAddAsLearner is
memberAdd with (true, false), and MemberAddAsAutoPromotingNode is
memberAdd with (true, true). -/
theorem c7_add_entry_points_are_memberAdd {κ ε : Type} (c : ClientEnv κ ε) (ctx : κ)
    (peerAddrs : List String) :
    cluster.MemberAddAsNode c ctx peerAddrs =
        cluster.memberAdd c ctx peerAddrs false false ∧
    cluster.MemberAddAsLearner c ctx peerAddrs =
        cluster.memberAdd c ctx peerAddrs true false ∧
    cluster.MemberAddAsAutoPromotingNode c ctx peerAddrs =
        cluster.memberAdd c ctx peerAddrs true true :=
  ⟨rfl, rfl, rfl⟩

/-- C8: the server's MemberList is a pure read: for every environment
and request it makes no delegate call and unconditionally returns a nil
error with the converted current member list of the cluster view. -/
theorem c8_memberList_pure_read {κ ε : Type} (cs : ServerEnv κ ε) (ctx : κ)
    (r : MemberListRequest) :
    ClusterServer.MemberList cs ctx r =
      ([], Except.ok { header := ClusterServer.header cs,
                       members := membersToProtoMembers cs.cluster.members }) :=
  rfl

/-- C9: membersToProtoMembers preserves length and, position by
position, copies exactly the name, id, peer URLs, client URLs and
learner flag of the input member: no member is dropped, duplicated or
reordered. -/
theorem c9_membersToProtoMembers_pointwise (membs : List Member) :
    (membersToProtoMembers membs).length = membs.length ∧
    ∀ (i : Nat) (mi : Member), membs[i]? = some mi →
      (membersToProtoMembers membs)[i]? =
        some { name := mi.name, id := mi.id, peerURLs := mi.peerURLs,
               clientURLs := mi.clientURLs, isLearner := mi.isLearner } := by
  constructor
  · simp [membersToProtoMembers]
  · intro i mi hmi
    simp [membersToProtoMembers, List.getElem?_map, hmi, memberToProto]

/-- Witness for C9, at a one-element list. -/
theorem c9_witness :
    (membersToProtoMembers
        [{ name := "a", id := 1, peerURLs := ["u"], clientURLs := ["c"],
           isLearner := true, autoPromote := false }])[0]? =
      some { name := "a", id := 1, peerURLs := ["u"], clientURLs := ["c"],
             isLearner := true } :=
  (c9_membersToProtoMembers_pointwise
      [{ name := "a", id := 1, peerURLs := ["u"], clientURLs := ["c"],
         isLearner := true, autoPromote := false }]).2 0 _ rfl

/-- C5: every successful server response carries a header built from the
responder's own identity: the cluster view's id, the responding node's
own server id (not the target member's id), and the current term; this
holds for MemberAdd, MemberRemove, MemberUpdate, MemberList and
MemberPromote. -/
theorem c5_response_header_identity {κ ε : Type} (cs : ServerEnv κ ε) (ctx : κ) :
    ClusterServer.header cs =
      { clusterId := cs.cluster.id, memberId := cs.serverID, raftTerm := cs.term } ∧
    (∀ r resp, (ClusterServer.MemberAdd cs ctx r).2 = Except.ok resp →
      resp.header = ClusterServer.header cs) ∧
    (∀ r resp, (ClusterServer.MemberRemove cs ctx r).2 = Except.ok resp →
      resp.header = ClusterServer.header cs) ∧
    (∀ r resp, (ClusterServer.MemberUpdate cs ctx r).2 = Except.ok resp →
      resp.header = ClusterServer.header cs) ∧
    (∀ r resp, (ClusterServer.MemberList cs ctx r).2 = Except.ok resp →
      resp.header = ClusterServer.header cs) ∧
    (∀ r resp, (ClusterServer.MemberPromote cs ctx r).2 = Except.ok resp →
      resp.header = ClusterServer.header cs) := by
  refine ⟨rfl, ?_, ?_, ?_, ?_, ?_⟩
  · intro r resp h
    cases hu : NewURLs cs.validURL r.peerURLs with
    | error e =>
      rw [MemberAdd_badURLs hu] at h
      exact absurd h (by simp)
    | ok urls =>
      cases ha : cs.addMember ctx (ClusterServer.newAddMember cs r urls) with
      | error merr =>
        rw [MemberAdd_delegate_error hu ha] at h
        exact absurd h (by simp)
      | ok membs =>
        rw [MemberAdd_delegate_ok hu ha] at h
        simp only [Except.ok.injEq] at h
        rw [← h]
  · intro r resp h
    cases hd : cs.removeMember ctx r.id with
    | error merr =>
      rw [MemberRemove_delegate_error hd] at h
      exact absurd h (by simp)
    | ok membs =>
      rw [MemberRemove_delegate_ok hd] at h
      simp only [Except.ok.injEq] at h
      rw [← h]
  · intro r resp h
    cases hd : cs.updateMember ctx (ClusterServer.updatedMember r) with
    | error merr =>
      rw [MemberUpdate_delegate_error hd] at h
      exact absurd h (by simp)
    | ok membs =>
      rw [MemberUpdate_delegate_ok hd] at h
      simp only [Except.ok.injEq] at h
      rw [← h]
  · intro r resp h
    simp only [ClusterServer.MemberList, Except.ok.injEq] at h
    rw [← h]
  · intro r resp h
    cases hd : cs.promoteMember ctx r.id with
    | error merr =>
      rw [MemberPromote_delegate_error hd] at h
      exact absurd h (by simp)
    | ok membs =>
      rw [MemberPromote_delegate_ok hd] at h
      simp only [Except.ok.injEq] at h
      rw [← h]

/-- Witness for C5: a successful MemberList response in the concrete
environment carries the responder's own header. -/
theorem c5_witness :
    ({ header := { clusterId := 7, memberId := 2, raftTerm := 5 },
       members := [] } : MemberListResponse).header =
      ClusterServer.header testServerEnv :=
  (c5_response_header_identity testServerEnv ()).2.2.2.2.1 {} _ rfl

/-- C2: when the peer-address list is empty or fails URL parsing
(NewURLs returns an error), the server's MemberAdd returns
ErrGRPCMemberBadURLs with no delegate call, and the client's memberAdd
returns the URL error with no request transmitted. -/
theorem c2_add_rejects_invalid_urls {κ ε : Type} (cs : ServerEnv κ ε) (c : ClientEnv κ ε)
    (ctx ctx2 : κ) (r : MemberAddRequest) (peerAddrs : List String)
    (isLearner autoPromote : Bool) (e e2 : URLErr)
    (hs : NewURLs cs.validURL r.peerURLs = Except.error e)
    (hc : NewURLs c.validURL peerAddrs = Except.error e2) :
    ClusterServer.MemberAdd cs ctx r = ([], Except.error ErrGRPCMemberBadURLs) ∧
    cluster.memberAdd c ctx2 peerAddrs isLearner autoPromote =
      ([], Except.error (ClientErr.urls e2)) :=
  ⟨MemberAdd_badURLs hs, memberAdd_badURLs hc⟩

/-- Witness for C2: the empty list on the server side and an invalid
address on the client side. -/
theorem c2_witness :
    ClusterServer.MemberAdd testServerEnv ()
        { peerURLs := [], isLearner := false, autoPromote := false } =
      ([], Except.error ErrGRPCMemberBadURLs) ∧
    cluster.memberAdd badClientEnv () ["badurl"] true false =
      ([], Except.error (ClientErr.urls (URLErr.invalid "badurl"))) :=
  c2_add_rejects_invalid_urls testServerEnv badClientEnv () ()
    { peerURLs := [], isLearner := false, autoPromote := false } ["badurl"] true false
    URLErr.noURLs (URLErr.invalid "badurl") rfl rfl

/-- C3: with valid peer URLs, the server's MemberAdd constructs the
member by the three-way variant mapping and hands exactly that member
to the delegate: isLearner=false gives NewMemberAsNode regardless of
autoPromote; isLearner=true with autoPromote=false gives
NewMemberAsLearner; isLearner=true with autoPromote=true gives
NewMemberAsAutoPromotingNode. -/
theorem c3_add_variant_mapping {κ ε : Type} (cs : ServerEnv κ ε) (ctx : κ)
    (r : MemberAddRequest) (urls : List String)
    (hu : NewURLs cs.validURL r.peerURLs = Except.ok urls) :
    (ClusterServer.MemberAdd cs ctx r).1 =
      [DelegateCall.addMember (ClusterServer.newAddMember cs r urls)] ∧
    (r.isLearner = false →
      ClusterServer.newAddMember cs r urls =
        NewMemberAsNode "" urls "" cs.now cs.genID) ∧
    (r.isLearner = true → r.autoPromote = false →
      ClusterServer.newAddMember cs r urls =
        NewMemberAsLearner "" urls "" cs.now cs.genID) ∧
    (r.isLearner = true → r.autoPromote = true →
      ClusterServer.newAddMember cs r urls =
        NewMemberAsAutoPromotingNode "" urls "" cs.now cs.genID) := by
  refine ⟨?_, ?_, ?_, ?_⟩
  · cases ha : cs.addMember ctx (ClusterServer.newAddMember cs r urls) with
    | error merr => rw [MemberAdd_delegate_error hu ha]
    | ok membs => rw [MemberAdd_delegate_ok hu ha]
  · intro h
    simp [ClusterServer.newAddMember, h]
  · intro h h2
    simp [ClusterServer.newAddMember, h, h2]
  · intro h h2
    simp [ClusterServer.newAddMember, h, h2]

/-- Witness for C3: isLearner=false with autoPromote=true still yields a
voting-node construction handed to the delegate. -/
theorem c3_witness :
    (ClusterServer.MemberAdd testServerEnv ()
        { peerURLs := ["u"], isLearner := false, autoPromote := true }).1 =
      [DelegateCall.addMember (NewMemberAsNode "" ["u"] "" 0 testServerEnv.genID)] := by
  have h := c3_add_variant_mapping testServerEnv ()
    { peerURLs := ["u"], isLearner := false, autoPromote := true } ["u"] rfl
  rw [h.1, h.2.1 rfl]
  rfl

/-- C4: for each mutating server operation, a delegate error is returned
as a nil response with the error translated exactly once through
togRPCError, and a delegate success always yields a non-nil response
with a nil error. -/
theorem c4_delegate_error_propagation {κ ε : Type} (cs : ServerEnv κ ε) (ctx : κ) :
    (∀ (r : MemberAddRequest) (urls : List String),
      NewURLs cs.validURL r.peerURLs = Except.ok urls →
      (∀ e, cs.addMember ctx (ClusterServer.newAddMember cs r urls) = Except.error e →
        (ClusterServer.MemberAdd cs ctx r).2 = Except.error (togRPCError e)) ∧
      (∀ membs, cs.addMember ctx (ClusterServer.newAddMember cs r urls) = Except.ok membs →
        ∃ resp, (ClusterServer.MemberAdd cs ctx r).2 = Except.ok resp)) ∧
    (∀ r : MemberRemoveRequest,
      (∀ e, cs.removeMember ctx r.id = Except.error e →
        (ClusterServer.MemberRemove cs ctx r).2 = Except.error (togRPCError e)) ∧
      (∀ membs, cs.removeMember ctx r.id = Except.ok membs →
        ∃ resp, (ClusterServer.MemberRemove cs ctx r).2 = Except.ok resp)) ∧
    (∀ r : MemberUpdateRequest,
      (∀ e, cs.updateMember ctx (ClusterServer.updatedMember r) = Except.error e →
        (ClusterServer.MemberUpdate cs ctx r).2 = Except.error (togRPCError e)) ∧
      (∀ membs, cs.updateMember ctx (ClusterServer.updatedMember r) = Except.ok membs →
        ∃ resp, (ClusterServer.MemberUpdate cs ctx r).2 = Except.ok resp)) ∧
    (∀ r : MemberPromoteRequest,
      (∀ e, cs.promoteMember ctx r.id = Except.error e →
        (ClusterServer.MemberPromote cs ctx r).2 = Except.error (togRPCError e)) ∧
      (∀ membs, cs.promoteMember ctx r.id = Except.ok membs →
        ∃ resp, (ClusterServer.MemberPromote cs ctx r).2 = Except.ok resp)) := by
  refine ⟨?_, ?_, ?_, ?_⟩
  · intro r urls hu
    exact ⟨fun e he => by rw [MemberAdd_delegate_error hu he],
           fun membs hm => ⟨_, by rw [MemberAdd_delegate_ok hu hm]⟩⟩
  · intro r
    exact ⟨fun e he => by rw [MemberRemove_delegate_error he],
           fun membs hm => ⟨_, by rw [MemberRemove_delegate_ok hm]⟩⟩
  · intro r
    exact ⟨fun e he => by rw [MemberUpdate_delegate_error he],
           fun membs hm => ⟨_, by rw [MemberUpdate_delegate_ok hm]⟩⟩
  · intro r
    exact ⟨fun e he => by rw [MemberPromote_delegate_error he],
           fun membs hm => ⟨_, by rw [MemberPromote_delegate_ok hm]⟩⟩

/-- Witness for C4: in the environment whose delegate fails, MemberRemove
surfaces the delegate's error 4 translated through togRPCError. -/
theorem c4_witness :
    (ClusterServer.MemberRemove errServerEnv () { id := 9 }).2 =
      Except.error (togRPCError 4) :=
  ((c4_delegate_error_propagation errServerEnv ()).2.1 { id := 9 }).1 4 rfl

/-- C6: client and server pre-flight validation for Add agree: with the
same URL-validity predicate and the same peer-address list, the
client's memberAdd fails with a URL error exactly when the server's
MemberAdd fails with ErrGRPCMemberBadURLs — no list is accepted by one
side and rejected by the other. -/
theorem c6_validation_agreement {κ ε ε2 : Type} (c : ClientEnv κ ε) (cs : ServerEnv κ ε2)
    (ctx ctx2 : κ) (peerAddrs : List String) (isLearner autoPromote : Bool)
    (r : MemberAddRequest)
    (hv : c.validURL = cs.validURL) (hr : r.peerURLs = peerAddrs) :
    (∃ e, (cluster.memberAdd c ctx peerAddrs isLearner autoPromote).2 =
        Except.error (ClientErr.urls e)) ↔
    (ClusterServer.MemberAdd cs ctx2 r).2 = Except.error ErrGRPCMemberBadURLs := by
  cases hu : NewURLs cs.validURL peerAddrs with
  | error e =>
    have hcu : NewURLs c.validURL peerAddrs = Except.error e := by rw [hv]; exact hu
    have hsu : NewURLs cs.validURL r.peerURLs = Except.error e := by rw [hr]; exact hu
    constructor
    · intro _
      rw [MemberAdd_badURLs hsu]
    · intro _
      exact ⟨e, by rw [memberAdd_badURLs hcu]⟩
  | ok urls =>
    have hcu : NewURLs c.validURL peerAddrs = Except.ok urls := by rw [hv]; exact hu
    have hsu : NewURLs cs.validURL r.peerURLs = Except.ok urls := by rw [hr]; exact hu
    constructor
    · rintro ⟨e, he⟩
      exfalso
      cases hrem : c.remoteMemberAdd ctx
          { peerURLs := peerAddrs, isLearner := isLearner, autoPromote := autoPromote } with
      | error err =>
        rw [memberAdd_remote_error hcu hrem] at he
        simp [toErr] at he
      | ok resp =>
        rw [memberAdd_remote_ok hcu hrem] at he
        simp at he
    · intro hes
      exfalso
      cases ha : cs.addMember ctx2 (ClusterServer.newAddMember cs r urls) with
      | error merr =>
        rw [MemberAdd_delegate_error hsu ha] at hes
        simp [togRPCError, ErrGRPCMemberBadURLs] at hes
      | ok membs =>
        rw [MemberAdd_delegate_ok hsu ha] at hes
        simp at hes

/-- Witness for C6: on the empty list, the client rejection transfers to
the server rejection through the equivalence. -/
theorem c6_witness :
    (ClusterServer.MemberAdd testServerEnv ()
        { peerURLs := [], isLearner := false, autoPromote := false }).2 =
      Except.error ErrGRPCMemberBadURLs :=
  (c6_validation_agreement testClientEnv testServerEnv () () [] false false
      { peerURLs := [], isLearner := false, autoPromote := false } rfl rfl).mp
    ⟨URLErr.noURLs, rfl⟩

/-- C10: a successful MemberAdd response carries, in its single added
Member record, only the constructed member's id, peer URLs and learner
flag; its name and client URLs are the zero values, while the full
Members list is the field-preserving conversion of the delegate's
post-change list. -/
theorem c10_add_response_member_fields {κ ε : Type} (cs : ServerEnv κ ε) (ctx : κ)
    (r : MemberAddRequest) (resp : MemberAddResponse)
    (h : (ClusterServer.MemberAdd cs ctx r).2 = Except.ok resp) :
    ∃ urls membs,
      NewURLs cs.validURL r.peerURLs = Except.ok urls ∧
      cs.addMember ctx (ClusterServer.newAddMember cs r urls) = Except.ok membs ∧
      resp.member.name = "" ∧
      resp.member.clientURLs = [] ∧
      resp.member.id = (ClusterServer.newAddMember cs r urls).id ∧
      resp.member.peerURLs = (ClusterServer.newAddMember cs r urls).peerURLs ∧
      resp.member.isLearner = (ClusterServer.newAddMember cs r urls).isLearner ∧
      resp.members = membersToProtoMembers membs := by
  cases hu : NewURLs cs.validURL r.peerURLs with
  | error e =>
    rw [MemberAdd_badURLs hu] at h
    exact absurd h (by simp)
  | ok urls =>
    cases ha : cs.addMember ctx (ClusterServer.newAddMember cs r urls) with
    | error merr =>
      rw [MemberAdd_delegate_error hu ha] at h
      exact absurd h (by simp)
    | ok membs =>
      rw [MemberAdd_delegate_ok hu ha] at h
      simp only [Except.ok.injEq] at h
      refine ⟨urls, membs, rfl, ha, ?_, ?_, ?_, ?_, ?_, ?_⟩
      all_goals rw [← h]

/-- The concrete MemberAdd response used by the C10 witness. -/
def addLearnerResp : MemberAddResponse :=
  { header := { clusterId := 7, memberId := 2, raftTerm := 5 },
    member := { name := "", id := 11, peerURLs := ["u"], clientURLs := [],
                isLearner := true },
    members := [] }

/-- Witness for C10: a successful learner add in the concrete
environment. -/
theorem c10_witness :
    ∃ urls membs,
      NewURLs testServerEnv.validURL
          ({ peerURLs := ["u"], isLearner := true, autoPromote := false }
            : MemberAddRequest).peerURLs = Except.ok urls ∧
      testServerEnv.addMember ()
          (ClusterServer.newAddMember testServerEnv
            { peerURLs := ["u"], isLearner := true, autoPromote := false } urls) =
        Except.ok membs ∧
      addLearnerResp.member.name = "" ∧
      addLearnerResp.member.clientURLs = [] ∧
      addLearnerResp.member.id =
        (ClusterServer.newAddMember testServerEnv
          { peerURLs := ["u"], isLearner := true, autoPromote := false } urls).id ∧
      addLearnerResp.member.peerURLs =
        (ClusterServer.newAddMember testServerEnv
          { peerURLs := ["u"], isLearner := true, autoPromote := false } urls).peerURLs ∧
      addLearnerResp.member.isLearner =
        (ClusterServer.newAddMember testServerEnv
          { peerURLs := ["u"], isLearner := true, autoPromote := false } urls).isLearner ∧
      addLearnerResp.members = membersToProtoMembers membs :=
  c10_add_response_member_fields testServerEnv ()
    { peerURLs := ["u"], isLearner := true, autoPromote := false } addLearnerResp rfl

/-- C1 counterexample: at member id 5 with the empty peer-address list,
in an environment whose UpdateMember delegate succeeds, the server's
MemberUpdate issues a delegate call and returns success rather than the
InvalidURLs rejection the claim requires — the server performs no URL
validation on Update. -/
theorem c1_counterexample :
    (ClusterServer.MemberUpdate testServerEnv () { id := 5, peerURLs := [] }).1 =
      [DelegateCall.updateMember
        { name := "", id := 5, peerURLs := [], clientURLs := [],
          isLearner := false, autoPromote := false }] ∧
    (ClusterServer.MemberUpdate testServerEnv () { id := 5, peerURLs := [] }).2 ≠
      Except.error ErrGRPCMemberBadURLs := by
  constructor
  · rfl
  · intro h
    have h2 : (Except.ok { header := { clusterId := 7, memberId := 2, raftTerm := 5 },
                           members := [] } : Except (ServerErr Unit) MemberUpdateResponse) =
        Except.error ErrGRPCMemberBadURLs := h
    exact Except.noConfusion h2

/-- C1 (amended): for every member id and every peer-address list that
is empty or contains an invalid URL, the client's MemberUpdate returns
the URL-validation error and transmits nothing on the remote channel;
the server's MemberUpdate, by contrast, performs no URL validation and
always issues exactly one UpdateMember delegate call carrying the
request's id and peer URLs. -/
theorem c1_update_client_validates_server_forwards {κ ε : Type}
    (c : ClientEnv κ ε) (cs : ServerEnv κ ε) (ctx ctx2 : κ) (id : Nat)
    (peerAddrs : List String) (e : URLErr)
    (hc : NewURLs c.validURL peerAddrs = Except.error e) :
    cluster.MemberUpdate c ctx id peerAddrs = ([], Except.error (ClientErr.urls e)) ∧
    ∀ r : MemberUpdateRequest,
      (ClusterServer.MemberUpdate cs ctx2 r).1 =
        [DelegateCall.updateMember (ClusterServer.updatedMember r)] := by
  refine ⟨clientMemberUpdate_badURLs hc, ?_⟩
  intro r
  cases hd : cs.updateMember ctx2 (ClusterServer.updatedMember r) with
  | error merr => rw [MemberUpdate_delegate_error hd]
  | ok membs => rw [MemberUpdate_delegate_ok hd]

/-- Witness for the amended C1: the client rejects an invalid address
without transmitting; the server forwards an update request straight to
the delegate. -/
theorem c1_witness :
    cluster.MemberUpdate badClientEnv () 5 ["badurl"] =
      ([], Except.error (ClientErr.urls (URLErr.invalid "badurl"))) ∧
    (ClusterServer.MemberUpdate testServerEnv () { id := 5, peerURLs := ["x"] }).1 =
      [DelegateCall.updateMember
        (ClusterServer.updatedMember { id := 5, peerURLs := ["x"] })] := by
  have h := c1_update_client_validates_server_forwards badClientEnv testServerEnv () () 5
    ["badurl"] (URLErr.invalid "badurl") rfl
  exact ⟨h.1, h.2 { id := 5, peerURLs := ["x"] }⟩
